import Mathlib

/-!
Verification of the ML-Algorithm-Selection-Quadrant dashboard (src/app.py).

The program is a linear script: it loads an 11-row literal table of
algorithm families, derives percentage and label columns, and maps the
user's selection state (highlighted family, task context) to per-point
render attributes (size, opacity, color, text color) of a scatter chart,
plus a sidebar detail panel.  Floats of the source are modelled as exact
rationals; Python string formatting (:.1f, :.2f) is modelled as exact
decimal rounding, half to even — the binary-double representation error
that can nudge an exact decimal tie (such as 0.475) one ulp off the tie
is not modelled, and no theorem below depends on such a value.
-/

namespace VizApp

/-- A row of the literal table `data_rows` of src/app.py (lines 27-39):
`('Category', True_C, True_D, Plot_C, Plot_D, Frequency, Safety_Score,
Schedule_Score, Cost_Score)`. -/
structure Row where
  category : String
  True_C : ℚ
  True_D : ℚ
  Plot_C : ℚ
  Plot_D : ℚ
  Frequency : ℕ
  Safety_Score : ℚ
  Schedule_Score : ℚ
  Cost_Score : ℚ
deriving DecidableEq

/-- The static table, transcribed verbatim from src/app.py lines 27-39. -/
def data_rows : List Row :=
  [⟨"ANN", 0.82, 0.09, 0.82, 0.09, 11, 0.20, 0.38, 0.44⟩,
   ⟨"Bayesian Networks", 0.00, 0.20, 0.00, 0.20, 1, 0.25, 0.00, 0.45⟩,
   ⟨"Boosting/Gradient", 0.84, 0.74, 0.84, 0.74, 29, 0.81, 0.72, 0.59⟩,
   ⟨"Decision Tree", 0.53, 0.28, 0.53, 0.28, 12, 0.38, 0.18, 0.61⟩,
   ⟨"Ensemble", 0.80, 0.35, 0.80, 0.35, 13, 0.46, 0.44, 0.47⟩,
   ⟨"Extremely Randomized Trees", 0.80, 0.80, 0.80, 0.80, 1, 0.88, 0.85, 0.68⟩,
   ⟨"KNN", 0.40, 0.13, 0.40, 0.13, 6, 0.125, 0.10, 0.475⟩,
   ⟨"Naïve-Bayesian", 0.00, 0.20, 0.00, 0.20, 2, 0.25, 0.00, 0.45⟩,
   ⟨"Random Forest", 0.88, 0.67, 0.88, 0.67, 15, 0.80, 0.68, 0.55⟩,
   ⟨"Regression", 0.19, 0.20, 0.19, 0.20, 14, 0.29, 0.10, 0.45⟩,
   ⟨"SVM", 0.96, 0.20, 0.96, 0.20, 9, 0.32, 0.35, 0.49⟩]

/-- The `category` column of the table. -/
def categories : List String := data_rows.map Row.category

/-- `total_freq = df['Frequency'].sum()` (src/app.py line 42). -/
def total_freq : ℕ := (data_rows.map Row.Frequency).sum

/-- `df['Frequency_Pct'] = (df['Frequency'] / total_freq) * 100`
(src/app.py line 43). -/
def freqPct (r : Row) : ℚ := ((r.Frequency : ℚ) / (total_freq : ℚ)) * 100

/-- Round a rational to the nearest integer, ties to even: the rounding
used by Python fixed-point formatting on exact decimal values. -/
def roundHE (q : ℚ) : ℤ :=
  if q - ⌊q⌋ < 1 / 2 then ⌊q⌋
  else if 1 / 2 < q - ⌊q⌋ then ⌊q⌋ + 1
  else if ⌊q⌋ % 2 = 0 then ⌊q⌋ else ⌊q⌋ + 1

/-- The decimal digit character for `d % 10`. -/
def digitChar (d : ℕ) : Char :=
  if d = 0 then '0' else if d = 1 then '1' else if d = 2 then '2'
  else if d = 3 then '3' else if d = 4 then '4' else if d = 5 then '5'
  else if d = 6 then '6' else if d = 7 then '7' else if d = 8 then '8' else '9'

/-- Decimal digit list of a natural number, most significant first; the
first argument is fuel bounding the recursion depth. -/
def natStrAux : ℕ → ℕ → List Char
  | 0, _ => []
  | fuel + 1, n =>
    if n < 10 then [digitChar n]
    else natStrAux fuel (n / 10) ++ [digitChar (n % 10)]

/-- Decimal rendering of a natural number. -/
def natStr (n : ℕ) : String := ⟨natStrAux (n + 1) n⟩

/-- Python `:.1f` formatting of a nonnegative value, modelled on exact
rationals (see the file header). -/
def fmtFixed1 (q : ℚ) : String :=
  natStr ((roundHE (q * 10)).toNat / 10) ++ "." ++ natStr ((roundHE (q * 10)).toNat % 10)

/-- Python `:.2f` formatting of a nonnegative value, modelled on exact
rationals (see the file header). -/
def fmtFixed2 (q : ℚ) : String :=
  natStr ((roundHE (q * 100)).toNat / 100) ++ "." ++
    (if (roundHE (q * 100)).toNat % 100 < 10 then "0" else "") ++
    natStr ((roundHE (q * 100)).toNat % 100)

/-- `df['Chart_Label'] = f"{row['category']}, {row['Frequency_Pct']:.1f}%"`
(src/app.py line 44). -/
def chartLabel (r : Row) : String :=
  r.category ++ ", " ++ fmtFixed1 (freqPct r) ++ "%"

/-- The task-context radio selector values (src/app.py lines 50-54). -/
inductive TaskContext where
  | general
  | safety
  | schedule
  | cost
deriving DecidableEq

/-- The dynamic `Size_Var` column (src/app.py lines 125-141): the raw
frequency in the general overview, otherwise the task score times 40. -/
def sizeVar (ctx : TaskContext) (r : Row) : ℚ :=
  match ctx with
  | .general => (r.Frequency : ℚ)
  | .safety => r.Safety_Score * 40
  | .schedule => r.Schedule_Score * 40
  | .cost => r.Cost_Score * 40

/-- The value of the `hover_col` column chosen by the context branch
(src/app.py lines 128, 133, 137, 141).  `Size_Label`, a string rendering
of the same underlying column, carries no further information and is
represented by this value. -/
def hoverVal (ctx : TaskContext) (r : Row) : ℚ :=
  match ctx with
  | .general => (r.Frequency : ℚ)
  | .safety => r.Safety_Score
  | .schedule => r.Schedule_Score
  | .cost => r.Cost_Score

/-- A table row after the context branch has added the derived plotting
columns; the base row is carried unchanged. -/
structure AugRow where
  row : Row
  sizeVarCol : ℚ
  hoverCol : ℚ
deriving DecidableEq

/-- The context branch of src/app.py lines 125-141: it only adds the
`Size_Var` (and hover/label) columns to the frame, leaving every base
column of the row untouched. -/
def augment (ctx : TaskContext) (r : Row) : AugRow :=
  ⟨r, sizeVar ctx r, hoverVal ctx r⟩

/-- One scatter point as handed to `px.scatter` (src/app.py lines
144-156): `x="Plot_C"`, `y="Plot_D"`, `size="Size_Var"`,
`color="category"`, `text="Chart_Label"`, hover showing `hover_col`. -/
structure ScatterPoint where
  x : ℚ
  y : ℚ
  size : ℚ
  colorKey : String
  text : String
  hover : ℚ
deriving DecidableEq

/-- The point produced for a row under a context. -/
def scatterPoint (ctx : TaskContext) (r : Row) : ScatterPoint :=
  { x := r.Plot_C
    y := r.Plot_D
    size := sizeVar ctx r
    colorKey := r.category
    text := chartLabel r
    hover := hoverVal ctx r }

/-- `algo_options = ["All Algorithms"] + sorted(df['category'].unique())`
(src/app.py line 60).  The category column is duplicate-free and already
in sorted order (proved below), so `sorted(unique(...))` returns it
unchanged. -/
def algo_options : List String := "All Algorithms" :: categories

/-- The row lookup `df[df['category'] == selected_algo].iloc[0]`
(src/app.py line 66), with the partiality of `iloc[0]` on an empty
filter made explicit as an `Option`. -/
def findRow (name : String) : Option Row :=
  data_rows.find? (fun r => r.category == name)

/-- `pastel_map` (src/app.py lines 94-106), an association of family
names to constant colors, keys transcribed verbatim. -/
def pastel_map : List (String × String) :=
  [("Artifical Neural Network (ANN)", "#D68C9F"),
   ("Bayesian Networks", "#A6C6CC"),
   ("Boosting/Gradient", "#A3C1A3"),
   ("Decision Tree", "#BFB5C2"),
   ("Ensemble", "#E6C8C8"),
   ("Extremely Randomized Trees", "#D1D1AA"),
   ("k-Nearest Neighbor (KNN)", "#9FA8DA"),
   ("Naïve-Bayesian", "#C4AFAF"),
   ("Random Forest", "#DDB8AC"),
   ("Regression", "#ABC6D4"),
   ("Support Vector Machine (SVM)", "#78909C")]

/-- The color `color_discrete_map` assigns to a category: `some` when the
category is a key of `pastel_map`, `none` when the charting library falls
back to its default palette for that trace. -/
def lookupColor (name : String) : Option String :=
  (pastel_map.find? (fun p => p.1 == name)).map Prod.snd

/-- The faded-marker opacity constant of the spotlight else-branch
(src/app.py line 178). -/
def fadedOpacity : ℚ := 0.3

/-- The per-trace attributes written by the spotlight loop (src/app.py
lines 159-179).  `markerColor = none` means the trace keeps its family
color from `pastel_map`; `lineWidth`/`lineColor = none` mean the outline
is left at the library default. -/
structure TraceStyle where
  markerColor : Option String
  markerOpacity : ℚ
  textColor : String
  lineWidth : Option ℚ
  lineColor : Option String
deriving DecidableEq

/-- Spotlight effect (src/app.py lines 166-179): with `selected` the
value of the highlight selectbox and `name` the trace's category. -/
def traceStyle (selected name : String) : TraceStyle :=
  if selected = "All Algorithms" then
    { markerColor := none, markerOpacity := 1, textColor := "black"
      lineWidth := none, lineColor := none }
  else if name = selected then
    { markerColor := none, markerOpacity := 1, textColor := "black"
      lineWidth := some 2, lineColor := some "black" }
  else
    { markerColor := some "#e0e0e0", markerOpacity := fadedOpacity
      textColor := "rgba(0,0,0,0.1)", lineWidth := none, lineColor := none }

/-- Quadrant threshold `c_median` (src/app.py line 182). -/
def c_median : ℚ := 0.80

/-- Quadrant threshold `d_median` (src/app.py line 182). -/
def d_median : ℚ := 0.20

/-- The four quadrant label phrases, as in the static chart annotations
(src/app.py lines 193-196) and the spec's detail-panel description. -/
def quadrantLabels : List String :=
  ["best of both", "complex & fragile", "simple & robust", "limited applicability"]

/-- Modelled from the spec: the interpretive classifier of a family's
(complexity, data_fit) pair against the quadrant thresholds, described in
the spec's detail-panel section but absent from src/app.py (the app only
draws selection-independent quadrant rectangles and annotations at these
thresholds).  Ties at a threshold go to the high side. -/
def quadrantLabel (c d : ℚ) : String :=
  if c_median ≤ c then
    if d_median ≤ d then "best of both" else "complex & fragile"
  else
    if d_median ≤ d then "simple & robust" else "limited applicability"

/-- The extra line of the detail panel (src/app.py lines 75-82): a task
score metric in a task context, the usage-frequency caption otherwise. -/
inductive PanelExtra where
  | taskScore (label : String) (value : ℚ)
  | freqCaption (pct : ℚ)
deriving DecidableEq

/-- Which extra line the context selects (src/app.py lines 75-82). -/
def panelExtra (ctx : TaskContext) (r : Row) : PanelExtra :=
  match ctx with
  | .general => .freqCaption (freqPct r)
  | .safety => .taskScore "🛡️ Safety Score" r.Safety_Score
  | .schedule => .taskScore "📅 Schedule Score" r.Schedule_Score
  | .cost => .taskScore "💰 Cost Score" r.Cost_Score

/-- What the sidebar detail panel renders for a selected family
(src/app.py lines 65-82): a header, the two raw-score metrics, and the
context-dependent extra line.  These four items are everything the panel
branch emits. -/
structure DetailPanel where
  header : String
  cValue : ℚ
  dValue : ℚ
  extra : PanelExtra
deriving DecidableEq

/-- The detail-panel logic (src/app.py lines 65-82): nothing is rendered
for the sentinel selection, otherwise the looked-up row's scores are
shown. -/
def detailPanel (selected : String) (ctx : TaskContext) : Option DetailPanel :=
  if selected = "All Algorithms" then none
  else (findRow selected).map fun row =>
    { header := "📊 " ++ selected
      cValue := row.True_C
      dValue := row.True_D
      extra := panelExtra ctx row }

/-- The strings the panel branch passes to the display calls: the
subheader, the two metric labels with their `:.2f` values, and the extra
line (src/app.py lines 67-82). -/
def panelStrings : DetailPanel → List String
  | ⟨hdr, c, d, .taskScore l v⟩ =>
    [hdr, "Complexity (C)", fmtFixed2 c, "Data Fit (D)", fmtFixed2 d, l, fmtFixed2 v]
  | ⟨hdr, c, d, .freqCaption q⟩ =>
    [hdr, "Complexity (C)", fmtFixed2 c, "Data Fit (D)", fmtFixed2 d,
     "**Usage Frequency:** " ++ fmtFixed1 q ++ "%"]

/-- The rendered panel strings of an optional panel (empty when nothing
is rendered). -/
def panelStringsOpt : Option DetailPanel → List String
  | none => []
  | some p => panelStrings p

/-- `startsWithSeg pat s` holds when `pat` is an initial segment of `s`. -/
def startsWithSeg : List Char → List Char → Bool
  | [], _ => true
  | _ :: _, [] => false
  | a :: as, b :: bs => a == b && startsWithSeg as bs

/-- `containsSeg pat s` holds when `pat` occurs contiguously in `s`. -/
def containsSeg (pat : List Char) : List Char → Bool
  | [] => startsWithSeg pat []
  | c :: cs => startsWithSeg pat (c :: cs) || containsSeg pat cs

/-- A score bounded in the unit interval. -/
def scoreBounded (q : ℚ) : Prop := 0 ≤ q ∧ q ≤ 1

/-- Code-point lexicographic strict order on character lists: the string
order Python's `sorted` uses. -/
def strLtb : List Char → List Char → Bool
  | [], [] => false
  | [], _ :: _ => true
  | _ :: _, [] => false
  | a :: as, b :: bs => if a < b then true else if b < a then false else strLtb as bs

/-- Whether a list of character lists is strictly increasing in the
code-point lexicographic order. -/
def chainLtb : List (List Char) → Bool
  | [] => true
  | [_] => true
  | a :: b :: rest => strLtb a b && chainLtb (b :: rest)

/-- Characters that can occur in a formatted number: the dot and the ten
digits. -/
def numericChars : List Char := ['.', '0', '1', '2', '3', '4', '5', '6', '7', '8', '9']

/-- The total of the `Frequency` column is the 113 implementations of the
literature review. -/
theorem total_freq_eq : total_freq = 113 := by decide

/-- Evaluation rule for `roundHE` when the fractional part is below one
half. -/
theorem roundHE_lt (q : ℚ) (m : ℤ) (h1 : (m : ℚ) ≤ q) (h2 : q < m + 1)
    (h3 : q - m < 1 / 2) : roundHE q = m := by
  have hf : ⌊q⌋ = m := Int.floor_eq_iff.mpr ⟨h1, h2⟩
  simp only [roundHE, hf]
  rw [if_pos h3]

/-- Evaluation rule for `roundHE` when the fractional part is above one
half. -/
theorem roundHE_gt (q : ℚ) (m : ℤ) (h1 : (m : ℚ) ≤ q) (h2 : q < m + 1)
    (h3 : 1 / 2 < q - m) : roundHE q = m + 1 := by
  have hf : ⌊q⌋ = m := Int.floor_eq_iff.mpr ⟨h1, h2⟩
  simp only [roundHE, hf]
  rw [if_neg (by linarith), if_pos h3]

/-- Every digit character is numeric. -/
theorem digitChar_mem (d : ℕ) : digitChar d ∈ numericChars := by
  unfold digitChar
  split_ifs <;> decide

/-- All characters produced by `natStrAux` are numeric. -/
theorem natStrAux_chars : ∀ fuel n : ℕ, ∀ c ∈ natStrAux fuel n, c ∈ numericChars := by
  intro fuel
  induction fuel with
  | zero => intro n c hc; simp [natStrAux] at hc
  | succ k ih =>
    intro n c hc
    unfold natStrAux at hc
    by_cases h : n < 10
    · simp [h] at hc
      subst hc
      exact digitChar_mem n
    · simp [h] at hc
      rcases hc with hc | hc
      · exact ih _ _ hc
      · subst hc
        exact digitChar_mem _

/-- String concatenation concatenates the character lists. -/
theorem data_append (s t : String) : (s ++ t).data = s.data ++ t.data := rfl

/-- All characters of `natStr` are numeric. -/
theorem natStr_chars (n : ℕ) : ∀ c ∈ (natStr n).data, c ∈ numericChars :=
  fun c hc => natStrAux_chars (n + 1) n c hc

/-- All characters of a `:.1f`-formatted value are numeric. -/
theorem fmtFixed1_chars (q : ℚ) : ∀ c ∈ (fmtFixed1 q).data, c ∈ numericChars := by
  intro c hc
  unfold fmtFixed1 at hc
  rw [data_append, data_append] at hc
  rcases List.mem_append.mp hc with hc | hc
  · rcases List.mem_append.mp hc with hc | hc
    · exact natStr_chars _ c hc
    · simp at hc; subst hc; decide
  · exact natStr_chars _ c hc

/-- All characters of a `:.2f`-formatted value are numeric. -/
theorem fmtFixed2_chars (q : ℚ) : ∀ c ∈ (fmtFixed2 q).data, c ∈ numericChars := by
  intro c hc
  unfold fmtFixed2 at hc
  rw [data_append, data_append, data_append] at hc
  rcases List.mem_append.mp hc with hc | hc
  · rcases List.mem_append.mp hc with hc | hc
    · rcases List.mem_append.mp hc with hc | hc
      · exact natStr_chars _ c hc
      · simp at hc; subst hc; decide
    · split at hc <;> simp at hc
      subst hc; decide
  · exact natStr_chars _ c hc

/-- A pattern matching at the front of a list only uses characters of the
list. -/
theorem startsWithSeg_subset : ∀ p s : List Char, startsWithSeg p s = true → ∀ c ∈ p, c ∈ s := by
  intro p
  induction p with
  | nil => intro s _ c hc; simp at hc
  | cons a as ih =>
    intro s h c hc
    cases s with
    | nil => simp [startsWithSeg] at h
    | cons b bs =>
      simp only [startsWithSeg, Bool.and_eq_true, beq_iff_eq] at h
      rcases List.mem_cons.mp hc with hc | hc
      · subst hc; rw [h.1]; exact List.mem_cons_self _ _
      · exact List.mem_cons_of_mem _ (ih bs h.2 c hc)

/-- A pattern containing a character absent from a list does not occur in
the list. -/
theorem containsSeg_eq_false (pat : List Char) (c : Char) (hc : c ∈ pat) :
    ∀ s : List Char, c ∉ s → containsSeg pat s = false := by
  intro s
  induction s with
  | nil =>
    intro _
    cases pat with
    | nil => simp at hc
    | cons a as => simp [containsSeg, startsWithSeg]
  | cons b bs ih =>
    intro hs
    have h1 : startsWithSeg pat (b :: bs) = false := by
      cases hsw : startsWithSeg pat (b :: bs) with
      | false => rfl
      | true => exact absurd (startsWithSeg_subset pat (b :: bs) hsw c hc) hs
    have h2 : containsSeg pat bs = false :=
      ih fun h => hs (List.mem_cons_of_mem _ h)
    simp [containsSeg, h1, h2]

/-- Every quadrant label contains a lowercase b or an ampersand. -/
theorem quadrantLabels_special : ∀ lbl ∈ quadrantLabels, 'b' ∈ lbl.data ∨ '&' ∈ lbl.data := by
  decide

/-- A string made of numeric characters contains neither a lowercase b
nor an ampersand. -/
theorem numeric_no_special (s : String) (h : ∀ c ∈ s.data, c ∈ numericChars) :
    'b' ∉ s.data ∧ '&' ∉ s.data :=
  ⟨fun hb => by have := h 'b' hb; revert this; decide,
   fun hb => by have := h '&' hb; revert this; decide⟩

/-- No quadrant label occurs in a formatted-number string. -/
theorem no_label_numeric (lbl : String) (hlbl : lbl ∈ quadrantLabels) (s : String)
    (h : ∀ c ∈ s.data, c ∈ numericChars) : containsSeg lbl.data s.data = false := by
  rcases quadrantLabels_special lbl hlbl with hc | hc
  · exact containsSeg_eq_false _ 'b' hc _ (numeric_no_special s h).1
  · exact containsSeg_eq_false _ '&' hc _ (numeric_no_special s h).2

/-- No quadrant label occurs in the usage-frequency caption. -/
theorem no_label_usage (lbl : String) (hlbl : lbl ∈ quadrantLabels) (q : ℚ) :
    containsSeg lbl.data ("**Usage Frequency:** " ++ fmtFixed1 q ++ "%").data = false := by
  have key : ∀ c : Char, c ∉ numericChars → c ∉ "**Usage Frequency:** ".data →
      c ∉ "%".data → c ∉ ("**Usage Frequency:** " ++ fmtFixed1 q ++ "%").data := by
    intro c hn h1 h2 h
    rw [data_append, data_append] at h
    rcases List.mem_append.mp h with h | h
    · rcases List.mem_append.mp h with h | h
      · exact h1 h
      · exact hn (fmtFixed1_chars q c h)
    · exact h2 h
  rcases quadrantLabels_special lbl hlbl with hc | hc
  · exact containsSeg_eq_false _ 'b' hc _ (key 'b' (by decide) (by decide) (by decide))
  · exact containsSeg_eq_false _ '&' hc _ (key '&' (by decide) (by decide) (by decide))

/-- No quadrant label occurs in any family's panel header. -/
theorem no_label_header : ∀ r ∈ data_rows, ∀ lbl ∈ quadrantLabels,
    containsSeg lbl.data ("📊 " ++ r.category).data = false := by
  decide

/-- No quadrant label occurs in the fixed metric labels of the panel. -/
theorem no_label_fixed : ∀ lbl ∈ quadrantLabels,
    containsSeg lbl.data "Complexity (C)".data = false ∧
    containsSeg lbl.data "Data Fit (D)".data = false ∧
    containsSeg lbl.data "🛡️ Safety Score".data = false ∧
    containsSeg lbl.data "📅 Schedule Score".data = false ∧
    containsSeg lbl.data "💰 Cost Score".data = false := by
  decide

/-- No quadrant label occurs in any string of the detail panel a table
row produces in any context. -/
theorem panel_no_label (r : Row) (hr : r ∈ data_rows) (ctx : TaskContext)
    (lbl : String) (hlbl : lbl ∈ quadrantLabels) :
    ∀ s ∈ panelStrings { header := "📊 " ++ r.category, cValue := r.True_C,
                         dValue := r.True_D, extra := panelExtra ctx r },
      containsSeg lbl.data s.data = false := by
  intro s hs
  cases ctx <;>
    simp only [panelStrings, panelExtra, List.mem_cons, List.not_mem_nil, or_false] at hs
  case general =>
    rcases hs with rfl | rfl | rfl | rfl | rfl | rfl
    · exact no_label_header r hr lbl hlbl
    · exact (no_label_fixed lbl hlbl).1
    · exact no_label_numeric lbl hlbl _ (fmtFixed2_chars _)
    · exact (no_label_fixed lbl hlbl).2.1
    · exact no_label_numeric lbl hlbl _ (fmtFixed2_chars _)
    · exact no_label_usage lbl hlbl _
  case safety =>
    rcases hs with rfl | rfl | rfl | rfl | rfl | rfl | rfl
    · exact no_label_header r hr lbl hlbl
    · exact (no_label_fixed lbl hlbl).1
    · exact no_label_numeric lbl hlbl _ (fmtFixed2_chars _)
    · exact (no_label_fixed lbl hlbl).2.1
    · exact no_label_numeric lbl hlbl _ (fmtFixed2_chars _)
    · exact (no_label_fixed lbl hlbl).2.2.1
    · exact no_label_numeric lbl hlbl _ (fmtFixed2_chars _)
  case schedule =>
    rcases hs with rfl | rfl | rfl | rfl | rfl | rfl | rfl
    · exact no_label_header r hr lbl hlbl
    · exact (no_label_fixed lbl hlbl).1
    · exact no_label_numeric lbl hlbl _ (fmtFixed2_chars _)
    · exact (no_label_fixed lbl hlbl).2.1
    · exact no_label_numeric lbl hlbl _ (fmtFixed2_chars _)
    · exact (no_label_fixed lbl hlbl).2.2.2.1
    · exact no_label_numeric lbl hlbl _ (fmtFixed2_chars _)
  case cost =>
    rcases hs with rfl | rfl | rfl | rfl | rfl | rfl | rfl
    · exact no_label_header r hr lbl hlbl
    · exact (no_label_fixed lbl hlbl).1
    · exact no_label_numeric lbl hlbl _ (fmtFixed2_chars _)
    · exact (no_label_fixed lbl hlbl).2.1
    · exact no_label_numeric lbl hlbl _ (fmtFixed2_chars _)
    · exact (no_label_fixed lbl hlbl).2.2.2.2
    · exact no_label_numeric lbl hlbl _ (fmtFixed2_chars _)

/-- C1, counterexample.  The claim says the detail panel renders an
interpretive quadrant label alongside the raw scores; at the concrete
selection "ANN" in the general context the code's panel consists of the
header, the two metrics, and the usage caption, and the classification
label for ANN's scores — "complex & fragile" per the spec's rule — occurs
in none of the rendered strings (nor does any other quadrant label). -/
theorem c1_detail_panel_counterexample :
    quadrantLabel 0.82 0.09 = "complex & fragile" ∧
    detailPanel "ANN" TaskContext.general =
      some { header := "📊 ANN", cValue := 0.82, dValue := 0.09,
             extra := PanelExtra.freqCaption
               (freqPct ⟨"ANN", 0.82, 0.09, 0.82, 0.09, 11, 0.20, 0.38, 0.44⟩) } ∧
    panelStringsOpt (detailPanel "ANN" TaskContext.general) =
      ["📊 ANN", "Complexity (C)", "0.82", "Data Fit (D)", "0.09",
       "**Usage Frequency:** 9.7%"] ∧
    (quadrantLabels.all fun lbl =>
      (["📊 ANN", "Complexity (C)", "0.82", "Data Fit (D)", "0.09",
        "**Usage Frequency:** 9.7%"].all fun s => !containsSeg lbl.data s.data)) = true := by
  have hC : fmtFixed2 (0.82 : ℚ) = "0.82" := by
    have h : roundHE ((0.82 : ℚ) * 100) = 82 := by
      apply roundHE_lt <;> norm_num
    simp only [fmtFixed2, h]
    decide
  have hD : fmtFixed2 (0.09 : ℚ) = "0.09" := by
    have h : roundHE ((0.09 : ℚ) * 100) = 9 := by
      apply roundHE_lt <;> norm_num
    simp only [fmtFixed2, h]
    decide
  have hF : fmtFixed1 (freqPct ⟨"ANN", 0.82, 0.09, 0.82, 0.09, 11, 0.20, 0.38, 0.44⟩) = "9.7" := by
    have h : roundHE (freqPct ⟨"ANN", 0.82, 0.09, 0.82, 0.09, 11, 0.20, 0.38, 0.44⟩ * 10) = 97 := by
      apply roundHE_lt <;> norm_num [freqPct, total_freq_eq]
    simp only [fmtFixed1, h]
    decide
  refine ⟨by norm_num [quadrantLabel, c_median, d_median], rfl, ?_, by decide⟩
  have hp : detailPanel "ANN" TaskContext.general =
      some { header := "📊 ANN", cValue := 0.82, dValue := 0.09,
             extra := PanelExtra.freqCaption
               (freqPct ⟨"ANN", 0.82, 0.09, 0.82, 0.09, 11, 0.20, 0.38, 0.44⟩) } := rfl
  rw [hp]
  simp only [panelStringsOpt, panelStrings, hC, hD, hF]
  decide

/-- C1, amended.  When a single family is selected, the detail panel
renders its raw scores (complexity, data fit, and the relevant task score
when a task context is active, the usage-frequency percentage otherwise),
but no interpretive quadrant label: no quadrant label phrase occurs in
any rendered panel string.  The classification of a (complexity,
data_fit) pair against the thresholds (0.80, 0.20) is a total function
with ties assigned to the high side, but the program never applies it in
the detail panel. -/
theorem c1_detail_panel_amended :
    (∀ c d : ℚ, quadrantLabel c d ∈ quadrantLabels) ∧
    quadrantLabel c_median d_median = "best of both" ∧
    ∀ ctx : TaskContext, ∀ r ∈ data_rows,
      detailPanel r.category ctx =
        some { header := "📊 " ++ r.category, cValue := r.True_C,
               dValue := r.True_D, extra := panelExtra ctx r } ∧
      ∀ lbl ∈ quadrantLabels,
        ∀ s ∈ panelStrings { header := "📊 " ++ r.category, cValue := r.True_C,
                             dValue := r.True_D, extra := panelExtra ctx r },
          containsSeg lbl.data s.data = false := by
  refine ⟨?_, ?_, ?_⟩
  · intro c d
    unfold quadrantLabel
    split_ifs <;> simp [quadrantLabels]
  · simp [quadrantLabel]
  · intro ctx r hr
    refine ⟨?_, fun lbl hlbl => panel_no_label r hr ctx lbl hlbl⟩
    cases ctx <;> fin_cases hr <;> rfl

/-- C1, witness for the amended theorem at the family "ANN" in the
general context. -/
theorem c1_detail_panel_amended_witness :
    detailPanel "ANN" TaskContext.general =
      some { header := "📊 " ++ "ANN", cValue := (0.82 : ℚ), dValue := (0.09 : ℚ),
             extra := panelExtra TaskContext.general
               ⟨"ANN", 0.82, 0.09, 0.82, 0.09, 11, 0.20, 0.38, 0.44⟩ } :=
  (c1_detail_panel_amended.2.2 TaskContext.general
    ⟨"ANN", 0.82, 0.09, 0.82, 0.09, 11, 0.20, 0.38, 0.44⟩
    (by unfold data_rows; exact List.mem_cons_self _ _)).1

/-- C2: selecting "All Algorithms" gives every trace full marker opacity;
selecting a family name from the table gives exactly that family opacity
1.0 and every other trace the faded constant 0.3, which lies in
[0.1, 0.3]. -/
theorem c2_spotlight_opacity (sel name : String) (h : sel ∈ categories) :
    (traceStyle "All Algorithms" name).markerOpacity = 1 ∧
    (traceStyle sel name).markerOpacity = (if name = sel then 1 else fadedOpacity) ∧
    1 / 10 ≤ fadedOpacity ∧ fadedOpacity ≤ 3 / 10 := by
  have hall : sel ≠ "All Algorithms" := by
    intro e
    subst e
    exact absurd h (by decide)
  refine ⟨by simp [traceStyle], ?_, by norm_num [fadedOpacity], by norm_num [fadedOpacity]⟩
  by_cases hn : name = sel
  · simp [traceStyle, hall, hn]
  · simp [traceStyle, hall, hn]

/-- C2, witness at selection "ANN" and trace "KNN". -/
theorem c2_spotlight_opacity_witness :
    (traceStyle "ANN" "KNN").markerOpacity = (if "KNN" = "ANN" then 1 else fadedOpacity) :=
  (c2_spotlight_opacity "ANN" "KNN" (by decide)).2.1

/-- C3: changing the task context changes only the `Size_Var` column and
the hover value; the base row, the point's coordinates, its color key,
and its text label are identical across contexts, and the coordinates
come from `Plot_C`/`Plot_D`. -/
theorem c3_context_only_size (ctx ctx' : TaskContext) (r : Row) :
    (augment ctx r).row = (augment ctx' r).row ∧
    (scatterPoint ctx r).x = (scatterPoint ctx' r).x ∧
    (scatterPoint ctx r).y = (scatterPoint ctx' r).y ∧
    (scatterPoint ctx r).colorKey = (scatterPoint ctx' r).colorKey ∧
    (scatterPoint ctx r).text = (scatterPoint ctx' r).text ∧
    (scatterPoint ctx r).x = r.Plot_C ∧
    (scatterPoint ctx r).y = r.Plot_D :=
  ⟨rfl, rfl, rfl, rfl, rfl, rfl, rfl⟩

/-- C4: the frequency percentages sum to exactly 100 (exact rational
arithmetic; the column is computed once, before and independently of the
task-context branch), the denominator is positive, and every frequency is
positive. -/
theorem c4_pct_sum :
    (data_rows.map freqPct).sum = 100 ∧
    0 < total_freq ∧
    ∀ r ∈ data_rows, 0 < r.Frequency := by
  refine ⟨?_, by decide, by decide⟩
  simp only [data_rows, freqPct, total_freq_eq, List.map_cons, List.map_nil,
    List.sum_cons, List.sum_nil]
  norm_num

/-- C4, witness at the family "ANN". -/
theorem c4_pct_sum_witness :
    0 < (⟨"ANN", 0.82, 0.09, 0.82, 0.09, 11, 0.20, 0.38, 0.44⟩ : Row).Frequency :=
  c4_pct_sum.2.2 _ (by unfold data_rows; exact List.mem_cons_self _ _)

/-- C5: every chart label is the category, a comma, and the `:.1f`
percentage with a percent sign; evaluated on the table this gives the
eleven labels below, in particular "Boosting/Gradient, 25.7%". -/
theorem c5_chart_labels :
    (∀ r : Row, chartLabel r = r.category ++ ", " ++ fmtFixed1 (freqPct r) ++ "%") ∧
    data_rows.map chartLabel =
      ["ANN, 9.7%", "Bayesian Networks, 0.9%", "Boosting/Gradient, 25.7%",
       "Decision Tree, 10.6%", "Ensemble, 11.5%", "Extremely Randomized Trees, 0.9%",
       "KNN, 5.3%", "Naïve-Bayesian, 1.8%", "Random Forest, 13.3%",
       "Regression, 12.4%", "SVM, 8.0%"] := by
  constructor
  · intro r
    rfl
  · have e1 : chartLabel ⟨"ANN", 0.82, 0.09, 0.82, 0.09, 11, 0.20, 0.38, 0.44⟩ = "ANN, 9.7%" := by
      have h : roundHE (freqPct ⟨"ANN", 0.82, 0.09, 0.82, 0.09, 11, 0.20, 0.38, 0.44⟩ * 10) = 97 := by
        apply roundHE_lt <;> norm_num [freqPct, total_freq_eq]
      simp only [chartLabel, fmtFixed1, h]
      decide
    have e2 : chartLabel ⟨"Bayesian Networks", 0.00, 0.20, 0.00, 0.20, 1, 0.25, 0.00, 0.45⟩ =
        "Bayesian Networks, 0.9%" := by
      have h : roundHE (freqPct ⟨"Bayesian Networks", 0.00, 0.20, 0.00, 0.20, 1, 0.25, 0.00, 0.45⟩ * 10) = 9 := by
        have hg := roundHE_gt
          (freqPct ⟨"Bayesian Networks", 0.00, 0.20, 0.00, 0.20, 1, 0.25, 0.00, 0.45⟩ * 10) 8
          (by norm_num [freqPct, total_freq_eq]) (by norm_num [freqPct, total_freq_eq])
          (by norm_num [freqPct, total_freq_eq])
        simpa using hg
      simp only [chartLabel, fmtFixed1, h]
      decide
    have e3 : chartLabel ⟨"Boosting/Gradient", 0.84, 0.74, 0.84, 0.74, 29, 0.81, 0.72, 0.59⟩ =
        "Boosting/Gradient, 25.7%" := by
      have h : roundHE (freqPct ⟨"Boosting/Gradient", 0.84, 0.74, 0.84, 0.74, 29, 0.81, 0.72, 0.59⟩ * 10) = 257 := by
        have hg := roundHE_gt
          (freqPct ⟨"Boosting/Gradient", 0.84, 0.74, 0.84, 0.74, 29, 0.81, 0.72, 0.59⟩ * 10) 256
          (by norm_num [freqPct, total_freq_eq]) (by norm_num [freqPct, total_freq_eq])
          (by norm_num [freqPct, total_freq_eq])
        simpa using hg
      simp only [chartLabel, fmtFixed1, h]
      decide
    have e4 : chartLabel ⟨"Decision Tree", 0.53, 0.28, 0.53, 0.28, 12, 0.38, 0.18, 0.61⟩ =
        "Decision Tree, 10.6%" := by
      have h : roundHE (freqPct ⟨"Decision Tree", 0.53, 0.28, 0.53, 0.28, 12, 0.38, 0.18, 0.61⟩ * 10) = 106 := by
        apply roundHE_lt <;> norm_num [freqPct, total_freq_eq]
      simp only [chartLabel, fmtFixed1, h]
      decide
    have e5 : chartLabel ⟨"Ensemble", 0.80, 0.35, 0.80, 0.35, 13, 0.46, 0.44, 0.47⟩ =
        "Ensemble, 11.5%" := by
      have h : roundHE (freqPct ⟨"Ensemble", 0.80, 0.35, 0.80, 0.35, 13, 0.46, 0.44, 0.47⟩ * 10) = 115 := by
        apply roundHE_lt <;> norm_num [freqPct, total_freq_eq]
      simp only [chartLabel, fmtFixed1, h]
      decide
    have e6 : chartLabel ⟨"Extremely Randomized Trees", 0.80, 0.80, 0.80, 0.80, 1, 0.88, 0.85, 0.68⟩ =
        "Extremely Randomized Trees, 0.9%" := by
      have h : roundHE (freqPct ⟨"Extremely Randomized Trees", 0.80, 0.80, 0.80, 0.80, 1, 0.88, 0.85, 0.68⟩ * 10) = 9 := by
        have hg := roundHE_gt
          (freqPct ⟨"Extremely Randomized Trees", 0.80, 0.80, 0.80, 0.80, 1, 0.88, 0.85, 0.68⟩ * 10) 8
          (by norm_num [freqPct, total_freq_eq]) (by norm_num [freqPct, total_freq_eq])
          (by norm_num [freqPct, total_freq_eq])
        simpa using hg
      simp only [chartLabel, fmtFixed1, h]
      decide
    have e7 : chartLabel ⟨"KNN", 0.40, 0.13, 0.40, 0.13, 6, 0.125, 0.10, 0.475⟩ =
        "KNN, 5.3%" := by
      have h : roundHE (freqPct ⟨"KNN", 0.40, 0.13, 0.40, 0.13, 6, 0.125, 0.10, 0.475⟩ * 10) = 53 := by
        apply roundHE_lt <;> norm_num [freqPct, total_freq_eq]
      simp only [chartLabel, fmtFixed1, h]
      decide
    have e8 : chartLabel ⟨"Naïve-Bayesian", 0.00, 0.20, 0.00, 0.20, 2, 0.25, 0.00, 0.45⟩ =
        "Naïve-Bayesian, 1.8%" := by
      have h : roundHE (freqPct ⟨"Naïve-Bayesian", 0.00, 0.20, 0.00, 0.20, 2, 0.25, 0.00, 0.45⟩ * 10) = 18 := by
        have hg := roundHE_gt
          (freqPct ⟨"Naïve-Bayesian", 0.00, 0.20, 0.00, 0.20, 2, 0.25, 0.00, 0.45⟩ * 10) 17
          (by norm_num [freqPct, total_freq_eq]) (by norm_num [freqPct, total_freq_eq])
          (by norm_num [freqPct, total_freq_eq])
        simpa using hg
      simp only [chartLabel, fmtFixed1, h]
      decide
    have e9 : chartLabel ⟨"Random Forest", 0.88, 0.67, 0.88, 0.67, 15, 0.80, 0.68, 0.55⟩ =
        "Random Forest, 13.3%" := by
      have h : roundHE (freqPct ⟨"Random Forest", 0.88, 0.67, 0.88, 0.67, 15, 0.80, 0.68, 0.55⟩ * 10) = 133 := by
        have hg := roundHE_gt
          (freqPct ⟨"Random Forest", 0.88, 0.67, 0.88, 0.67, 15, 0.80, 0.68, 0.55⟩ * 10) 132
          (by norm_num [freqPct, total_freq_eq]) (by norm_num [freqPct, total_freq_eq])
          (by norm_num [freqPct, total_freq_eq])
        simpa using hg
      simp only [chartLabel, fmtFixed1, h]
      decide
    have e10 : chartLabel ⟨"Regression", 0.19, 0.20, 0.19, 0.20, 14, 0.29, 0.10, 0.45⟩ =
        "Regression, 12.4%" := by
      have h : roundHE (freqPct ⟨"Regression", 0.19, 0.20, 0.19, 0.20, 14, 0.29, 0.10, 0.45⟩ * 10) = 124 := by
        have hg := roundHE_gt
          (freqPct ⟨"Regression", 0.19, 0.20, 0.19, 0.20, 14, 0.29, 0.10, 0.45⟩ * 10) 123
          (by norm_num [freqPct, total_freq_eq]) (by norm_num [freqPct, total_freq_eq])
          (by norm_num [freqPct, total_freq_eq])
        simpa using hg
      simp only [chartLabel, fmtFixed1, h]
      decide
    have e11 : chartLabel ⟨"SVM", 0.96, 0.20, 0.96, 0.20, 9, 0.32, 0.35, 0.49⟩ =
        "SVM, 8.0%" := by
      have h : roundHE (freqPct ⟨"SVM", 0.96, 0.20, 0.96, 0.20, 9, 0.32, 0.35, 0.49⟩ * 10) = 80 := by
        have hg := roundHE_gt
          (freqPct ⟨"SVM", 0.96, 0.20, 0.96, 0.20, 9, 0.32, 0.35, 0.49⟩ * 10) 79
          (by norm_num [freqPct, total_freq_eq]) (by norm_num [freqPct, total_freq_eq])
          (by norm_num [freqPct, total_freq_eq])
        simpa using hg
      simp only [chartLabel, fmtFixed1, h]
      decide
    simp only [data_rows, List.map_cons, List.map_nil, e1, e2, e3, e4, e5, e6, e7, e8,
      e9, e10, e11]

/-- C6: the bubble-size value is the raw frequency in the general
overview and the task score times the fixed multiplier 40 in the three
task contexts; evaluated on the table this gives the listed columns. -/
theorem c6_size_encoding :
    (∀ r : Row,
      sizeVar TaskContext.general r = (r.Frequency : ℚ) ∧
      sizeVar TaskContext.safety r = r.Safety_Score * 40 ∧
      sizeVar TaskContext.schedule r = r.Schedule_Score * 40 ∧
      sizeVar TaskContext.cost r = r.Cost_Score * 40) ∧
    data_rows.map (sizeVar TaskContext.general) = [11, 1, 29, 12, 13, 1, 6, 2, 15, 14, 9] ∧
    data_rows.map (sizeVar TaskContext.safety) =
      [8, 10, 32.4, 15.2, 18.4, 35.2, 5, 10, 32, 11.6, 12.8] := by
  refine ⟨fun r => ⟨rfl, rfl, rfl, rfl⟩, ?_, ?_⟩ <;>
    · simp only [data_rows, sizeVar, List.map_cons, List.map_nil, List.cons.injEq]
      norm_num

/-- C7: the selector options are exactly the sentinel "All Algorithms"
followed by the table's category column (which is duplicate-free and
already sorted, so Python's `sorted(unique(...))` returns it unchanged),
and for every non-sentinel option the row lookup filter matches exactly
one record. -/
theorem c7_selector_safe (s : String) (hs : s ∈ algo_options) (hne : s ≠ "All Algorithms") :
    algo_options = "All Algorithms" :: categories ∧
    chainLtb (categories.map String.data) = true ∧
    (data_rows.filter fun r => r.category == s).length = 1 := by
  refine ⟨rfl, by decide, ?_⟩
  have hall : ∀ t ∈ algo_options, t ≠ "All Algorithms" →
      (data_rows.filter fun r => r.category == t).length = 1 := by decide
  exact hall s hs hne

/-- C7, witness at the option "SVM". -/
theorem c7_selector_safe_witness :
    (data_rows.filter fun r => r.category == "SVM").length = 1 :=
  (c7_selector_safe "SVM" (by decide) (by decide)).2.2

/-- C8: the table has exactly 11 records with pairwise-distinct family
names; every true, plot, and task score lies in [0, 1]; every frequency
is positive and the column sums to the normalization denominator 113; and
the context branch never mutates a base row, only adding derived
columns. -/
theorem c8_table_invariants :
    data_rows.length = 11 ∧
    categories.Nodup ∧
    total_freq = 113 ∧
    (∀ r ∈ data_rows,
      scoreBounded r.True_C ∧ scoreBounded r.True_D ∧ scoreBounded r.Plot_C ∧
        scoreBounded r.Plot_D ∧ scoreBounded r.Safety_Score ∧
        scoreBounded r.Schedule_Score ∧ scoreBounded r.Cost_Score) ∧
    (∀ r ∈ data_rows, 0 < r.Frequency) ∧
    ∀ ctx : TaskContext, ∀ r : Row, (augment ctx r).row = r := by
  refine ⟨by decide, by decide, by decide, ?_, by decide, fun ctx r => rfl⟩
  intro r hr
  fin_cases hr <;> norm_num [scoreBounded]

/-- C8, witness at the family "ANN". -/
theorem c8_table_invariants_witness :
    scoreBounded (0.82 : ℚ) ∧ 0 < (11 : ℕ) := by
  constructor
  · exact (c8_table_invariants.2.2.2.1 ⟨"ANN", 0.82, 0.09, 0.82, 0.09, 11, 0.20, 0.38, 0.44⟩
      (by unfold data_rows; exact List.mem_cons_self _ _)).1
  · exact c8_table_invariants.2.2.2.2.1 ⟨"ANN", 0.82, 0.09, 0.82, 0.09, 11, 0.20, 0.38, 0.44⟩
      (by unfold data_rows; exact List.mem_cons_self _ _)

/-- C9: the color table keys the three long-form names, which do not
occur in the category column, so "ANN", "KNN" and "SVM" get no mapped
color (the library default applies); the other eight categories receive
their declared constants. -/
theorem c9_color_map_mismatch :
    lookupColor "ANN" = none ∧ lookupColor "KNN" = none ∧ lookupColor "SVM" = none ∧
    ("Artifical Neural Network (ANN)" ∈ pastel_map.map Prod.fst ∧
      "Artifical Neural Network (ANN)" ∉ categories) ∧
    ("k-Nearest Neighbor (KNN)" ∈ pastel_map.map Prod.fst ∧
      "k-Nearest Neighbor (KNN)" ∉ categories) ∧
    ("Support Vector Machine (SVM)" ∈ pastel_map.map Prod.fst ∧
      "Support Vector Machine (SVM)" ∉ categories) ∧
    lookupColor "Bayesian Networks" = some "#A6C6CC" ∧
    lookupColor "Boosting/Gradient" = some "#A3C1A3" ∧
    lookupColor "Decision Tree" = some "#BFB5C2" ∧
    lookupColor "Ensemble" = some "#E6C8C8" ∧
    lookupColor "Extremely Randomized Trees" = some "#D1D1AA" ∧
    lookupColor "Naïve-Bayesian" = some "#C4AFAF" ∧
    lookupColor "Random Forest" = some "#DDB8AC" ∧
    lookupColor "Regression" = some "#ABC6D4" ∧
    (data_rows.filter fun r => (lookupColor r.category).isNone).map Row.category =
      ["ANN", "KNN", "SVM"] := by
  decide

/-- C10: with a specific family selected, every non-selected trace has
its marker color replaced by the grey constant, opacity 0.3, and its text
color set near-transparent, while the selected trace keeps its family
color at full opacity and gains a black outline of width 2. -/
theorem c10_grey_out (sel name : String) (hs : sel ∈ categories) (_hn : name ∈ categories) :
    (name ≠ sel →
      traceStyle sel name =
        { markerColor := some "#e0e0e0", markerOpacity := fadedOpacity,
          textColor := "rgba(0,0,0,0.1)", lineWidth := none, lineColor := none }) ∧
    traceStyle sel sel =
      { markerColor := none, markerOpacity := 1, textColor := "black",
        lineWidth := some 2, lineColor := some "black" } := by
  have hall : sel ≠ "All Algorithms" := by
    intro e
    subst e
    exact absurd hs (by decide)
  constructor
  · intro hne
    simp [traceStyle, hall, hne]
  · simp [traceStyle, hall]

/-- C10, witness at selection "ANN" and trace "KNN". -/
theorem c10_grey_out_witness :
    traceStyle "ANN" "KNN" =
      { markerColor := some "#e0e0e0", markerOpacity := fadedOpacity,
        textColor := "rgba(0,0,0,0.1)", lineWidth := none, lineColor := none } :=
  (c10_grey_out "ANN" "KNN" (by decide) (by decide)).1 (by decide)

end VizApp
